import Mathlib

/-!
Shallow embedding of the contact-book program (web-hw-02.py): proleptic
Gregorian calendar dates as used by Python `datetime.date`, validated
phone and birthday fields, contact records, the insertion-ordered
address book, and the upcoming-birthday query.  Stateful record methods
are modelled as functions returning the final record state together with
an `Except` outcome, so that an exception raised after a mutation leaves
the mutation visible, exactly as in the source.
-/

namespace Hw2

/-- Leap-year test of the proleptic Gregorian calendar, as used by
Python `datetime`. -/
def isLeap (y : Nat) : Bool :=
  decide (y % 4 = 0 ∧ (¬ y % 100 = 0 ∨ y % 400 = 0))

/-- Number of days in month `m` of year `y` (months numbered 1..12). -/
def daysInMonth (y m : Nat) : Nat :=
  if m = 2 then (if isLeap y then 29 else 28)
  else if m = 4 ∨ m = 6 ∨ m = 9 ∨ m = 11 then 30
  else 31

/-- A calendar date as stored by Python `datetime.date`: year, month, day. -/
structure PyDate where
  year : Nat
  month : Nat
  day : Nat
deriving DecidableEq, Repr

/-- Validity check performed by the `datetime` constructor (year at least
`MINYEAR = 1`, month 1..12, day within the month). -/
def dateValidB (y m d : Nat) : Bool :=
  decide (1 ≤ y ∧ 1 ≤ m ∧ m ≤ 12 ∧ 1 ≤ d ∧ d ≤ daysInMonth y m)

/-- The `datetime(year=y, month=m, day=d)` constructor: returns the date or
raises `ValueError` on an invalid combination. -/
def mkDate (y m d : Nat) : Except String PyDate :=
  if dateValidB y m d then .ok ⟨y, m, d⟩
  else .error "day is out of range for month"

/-- Days in all years strictly before year `y` (proleptic Gregorian),
so that `toOrdinal ⟨1,1,1⟩ = 1`, matching Python `date.toordinal`. -/
def daysBeforeYear (y : Nat) : Nat :=
  (y - 1) * 365 + (y - 1) / 4 + (y - 1) / 400 - (y - 1) / 100

/-- Days in year `y` strictly before month `m`. -/
def daysBeforeMonth (y m : Nat) : Nat :=
  (match m with
   | 1 => 0 | 2 => 31 | 3 => 59 | 4 => 90 | 5 => 120 | 6 => 151
   | 7 => 181 | 8 => 212 | 9 => 243 | 10 => 273 | 11 => 304 | 12 => 334
   | _ => 365) +
  (if 2 < m ∧ isLeap y then 1 else 0)

/-- Python `date.toordinal`: day number with 0001-01-01 as day 1. -/
def toOrdinal (d : PyDate) : Nat :=
  daysBeforeYear d.year + daysBeforeMonth d.year d.month + d.day

/-- Python `date.weekday()`: Monday = 0 .. Sunday = 6. -/
def weekday (d : PyDate) : Nat :=
  (toOrdinal d + 6) % 7

/-- Successor date (the effect of adding `timedelta(days=1)`). -/
def nextDay (d : PyDate) : PyDate :=
  if d.day < daysInMonth d.year d.month then ⟨d.year, d.month, d.day + 1⟩
  else if d.month < 12 then ⟨d.year, d.month + 1, 1⟩
  else ⟨d.year + 1, 1, 1⟩

/-- Adding `n` days to a date (`date + timedelta(days=n)` for `n ≥ 0`). -/
def addDays : PyDate → Nat → PyDate
  | d, 0 => d
  | d, n + 1 => nextDay (addDays d n)

/-- Two-digit zero-padded rendering of a day or month number. -/
def pad2 (n : Nat) : String :=
  if n < 10 then "0" ++ toString n else toString n

/-- Python `strftime('%d.%m.%Y')` on a date. -/
def fmtDMY (d : PyDate) : String :=
  pad2 d.day ++ "." ++ pad2 d.month ++ "." ++ toString d.year

/-- Rendering of a `Field` value (`Field.__str__`: the stored text itself). -/
def fieldStr (v : String) : String := v

/-- ASCII decimal digit test (code points 48-57). -/
def isAsciiDigit (c : Char) : Bool :=
  decide (48 ≤ c.toNat ∧ c.toNat ≤ 57)

/-- Code-point ranges of the characters accepted by Python `str.isdigit`
(Unicode Numeric_Type Digit or Decimal; Unicode 14.0, CPython 3.11). -/
def pyDigitRanges : List (Nat × Nat) := [
  (48, 57), (178, 179), (185, 185), (1632, 1641), (1776, 1785), (1984, 1993), (2406, 2415),
  (2534, 2543), (2662, 2671), (2790, 2799), (2918, 2927), (3046, 3055), (3174, 3183),
  (3302, 3311), (3430, 3439), (3558, 3567), (3664, 3673), (3792, 3801), (3872, 3881),
  (4160, 4169), (4240, 4249), (4969, 4977), (6112, 6121), (6160, 6169), (6470, 6479),
  (6608, 6618), (6784, 6793), (6800, 6809), (6992, 7001), (7088, 7097), (7232, 7241),
  (7248, 7257), (8304, 8304), (8308, 8313), (8320, 8329), (9312, 9320), (9332, 9340),
  (9352, 9360), (9450, 9450), (9461, 9469), (9471, 9471), (10102, 10110), (10112, 10120),
  (10122, 10130), (42528, 42537), (43216, 43225), (43264, 43273), (43472, 43481), (43504, 43513),
  (43600, 43609), (44016, 44025), (65296, 65305), (66720, 66729), (68160, 68163), (68912, 68921),
  (69216, 69224), (69714, 69722), (69734, 69743), (69872, 69881), (69942, 69951), (70096, 70105),
  (70384, 70393), (70736, 70745), (70864, 70873), (71248, 71257), (71360, 71369), (71472, 71481),
  (71904, 71913), (72016, 72025), (72784, 72793), (73040, 73049), (73120, 73129), (92768, 92777),
  (92864, 92873), (93008, 93017), (120782, 120831), (123200, 123209), (123632, 123641),
  (125264, 125273), (127232, 127242), (130032, 130041)]

/-- Code-point ranges of the Unicode decimal digits (category Nd), the
character class matched by the digit escape of CPython `re` patterns over
`str`; each range is one or more decade-aligned runs whose digit values
are the offsets modulo 10 (Unicode 14.0). -/
def ndRanges : List (Nat × Nat) := [
  (48, 57), (1632, 1641), (1776, 1785), (1984, 1993), (2406, 2415), (2534, 2543), (2662, 2671),
  (2790, 2799), (2918, 2927), (3046, 3055), (3174, 3183), (3302, 3311), (3430, 3439),
  (3558, 3567), (3664, 3673), (3792, 3801), (3872, 3881), (4160, 4169), (4240, 4249),
  (6112, 6121), (6160, 6169), (6470, 6479), (6608, 6617), (6784, 6793), (6800, 6809),
  (6992, 7001), (7088, 7097), (7232, 7241), (7248, 7257), (42528, 42537), (43216, 43225),
  (43264, 43273), (43472, 43481), (43504, 43513), (43600, 43609), (44016, 44025), (65296, 65305),
  (66720, 66729), (68912, 68921), (69734, 69743), (69872, 69881), (69942, 69951), (70096, 70105),
  (70384, 70393), (70736, 70745), (70864, 70873), (71248, 71257), (71360, 71369), (71472, 71481),
  (71904, 71913), (72016, 72025), (72784, 72793), (73040, 73049), (73120, 73129), (92768, 92777),
  (92864, 92873), (93008, 93017), (120782, 120831), (123200, 123209), (123632, 123641),
  (125264, 125273), (130032, 130041)]

/-- The per-character test of Python `str.isdigit`: membership in the
Numeric_Type Digit or Decimal table. -/
def pyIsDigitChar (c : Char) : Bool :=
  pyDigitRanges.any (fun r => decide (r.1 ≤ c.toNat ∧ c.toNat ≤ r.2))

/-- Unicode decimal digit (category Nd) test. -/
def isNd (c : Char) : Bool :=
  ndRanges.any (fun r => decide (r.1 ≤ c.toNat ∧ c.toNat ≤ r.2))

/-- Decimal value of a Unicode decimal digit (offset in its decade-aligned
run); 0 on non-digits, which the callers never pass. -/
def ndVal (c : Char) : Nat :=
  match ndRanges.find? (fun r => decide (r.1 ≤ c.toNat ∧ c.toNat ≤ r.2)) with
  | some r => (c.toNat - r.1) % 10
  | none => 0

/-- The `Phone` constructor: stores the text if it is exactly 10 characters
accepted by `str.isdigit` (Unicode-aware); otherwise raises `ValueError`. -/
def mkPhone (v : String) : Except String String :=
  if (v.length == 10) && v.toList.all pyIsDigitChar then .ok v
  else .error "The number must be 10 digits long"

/-- Numeric value of a matched `strptime` group, as Python `int` computes
it: leading spaces (from the space-padded day form) are stripped and the
digits folded by their Unicode decimal values. -/
def tokVal (l : List Char) : Nat :=
  (l.dropWhile (fun c => c = ' ')).foldl (fun a c => a * 10 + ndVal c) 0

/-- Splitting a character sequence at every dot, as Python string splitting
does (an empty sequence yields one empty piece). -/
def splitDots : List Char → List (List Char)
  | [] => [[]]
  | c :: rest =>
    if c = '.' then [] :: splitDots rest
    else
      match splitDots rest with
      | t :: ts => (c :: t) :: ts
      | [] => [[c]]

/-- Day token of the `%d` directive of CPython `strptime`, whose regex
alternatives are: 3[01], [12] followed by any Unicode decimal digit,
0[1-9], a single [1-9], or a space-padded [1-9]. -/
def dayTok : List Char → Bool
  | [c] => decide (49 ≤ c.toNat ∧ c.toNat ≤ 57)
  | [c1, c2] =>
    (decide (c1 = '3') && decide (c2 = '0' ∨ c2 = '1')) ||
    (decide (c1 = '1' ∨ c1 = '2') && isNd c2) ||
    (decide (c1 = '0') && decide (49 ≤ c2.toNat ∧ c2.toNat ≤ 57)) ||
    (decide (c1 = ' ') && decide (49 ≤ c2.toNat ∧ c2.toNat ≤ 57))
  | _ => false

/-- Month token of the `%m` directive of CPython `strptime`, whose regex
alternatives are all ASCII: 1[0-2], 0[1-9], or a single [1-9]. -/
def monthTok : List Char → Bool
  | [c] => decide (49 ≤ c.toNat ∧ c.toNat ≤ 57)
  | [c1, c2] =>
    (decide (c1 = '1') && decide (48 ≤ c2.toNat ∧ c2.toNat ≤ 50)) ||
    (decide (c1 = '0') && decide (49 ≤ c2.toNat ∧ c2.toNat ≤ 57))
  | _ => false

/-- Year token of the `%Y` directive of CPython `strptime`: exactly four
Unicode decimal digits. -/
def yearTok (l : List Char) : Bool :=
  decide (l.length = 4) && l.all isNd

/-- The `Birthday` constructor: `strptime(value, '%d.%m.%Y')` followed by
date construction; any `ValueError` is replaced by the format message. -/
def mkBirthday (v : String) : Except String PyDate :=
  match splitDots v.toList with
  | [ds, ms, ys] =>
    if dayTok ds && monthTok ms && yearTok ys then
      match mkDate (tokVal ys) (tokVal ms) (tokVal ds) with
      | .ok d => .ok d
      | .error _ => .error "Invalid date format. Use DD.MM.YYYY"
    else .error "Invalid date format. Use DD.MM.YYYY"
  | _ => .error "Invalid date format. Use DD.MM.YYYY"

/-- A contact record: name (set at creation), ordered phone list,
optional birthday. -/
structure Record where
  name : String
  phones : List String
  birthday : Option PyDate
deriving DecidableEq, Repr

/-- `Record.__init__`: a record starts with the given name, no phones,
no birthday. -/
def Record.create (name : String) : Record :=
  ⟨name, [], none⟩

/-- `Record.add_phone`: validates and appends; on validation failure the
record is unchanged and the error propagates. -/
def Record.add_phone (r : Record) (phone : String) : Record × Except String Unit :=
  match mkPhone phone with
  | .ok p => ({ r with phones := r.phones ++ [p] }, .ok ())
  | .error e => (r, .error e)

/-- `Record.remove_phone`: removes the first stored phone equal to the
argument, or raises `ValueError` if none matches. -/
def Record.remove_phone (r : Record) (phone : String) : Record × Except String Unit :=
  if r.phones.contains phone then
    ({ r with phones := r.phones.erase phone }, .ok ())
  else (r, .error ("\x27" ++ phone ++ "\x27 not found"))

/-- `Record.find_phone`: first stored phone equal to the argument, if any. -/
def Record.find_phone (r : Record) (phone : String) : Option String :=
  r.phones.find? (fun p => p == phone)

/-- `Record.edit_phone`: looks up the old phone, removes it, then adds the
new one; the removal happens before the new phone is validated. -/
def Record.edit_phone (r : Record) (old_phone new_phone : String) :
    Record × Except String Unit :=
  match r.find_phone old_phone with
  | some _ =>
    let step := r.remove_phone old_phone
    match step.2 with
    | .error e => (step.1, .error e)
    | .ok _ => step.1.add_phone new_phone
  | none => (r, .error ("\x27" ++ old_phone ++ "\x27 not found"))

/-- `Record.add_birthday`: parses and stores the birthday, overwriting any
previous one; on parse failure the record is unchanged. -/
def Record.add_birthday (r : Record) (birthday : String) : Record × Except String Unit :=
  match mkBirthday birthday with
  | .ok d => ({ r with birthday := some d }, .ok ())
  | .error e => (r, .error e)

/-- The address book: the underlying `dict` as an insertion-ordered
association list from name to record. -/
structure AddressBook where
  data : List (String × Record)
deriving DecidableEq, Repr

/-- `AddressBook.add_record`: `self.data[record.name.value] = record` —
replaces in place if the key exists (keeping its position), else appends. -/
def AddressBook.add_record (b : AddressBook) (r : Record) : AddressBook :=
  if b.data.any (fun kv => kv.1 == r.name) then
    ⟨b.data.map (fun kv => if kv.1 == r.name then (kv.1, r) else kv)⟩
  else ⟨b.data ++ [(r.name, r)]⟩

/-- `AddressBook.find`: `self.data.get(name)`. -/
def AddressBook.find (b : AddressBook) (name : String) : Option Record :=
  (b.data.find? (fun kv => kv.1 == name)).map (fun kv => kv.2)

/-- `AddressBook.delete`: `del self.data[name]`, raising `KeyError` when
the key is absent. -/
def AddressBook.delete (b : AddressBook) (name : String) : Except String AddressBook :=
  if b.data.any (fun kv => kv.1 == name) then
    .ok ⟨b.data.eraseP (fun kv => kv.1 == name)⟩
  else .error ("\x27" ++ name ++ "\x27")

/-- Lines 88-93 of the source: this-year occurrence, advanced to next year
when it lies strictly before today; either `datetime` construction can
raise. -/
def occurrence (today : PyDate) (bd : PyDate) : Except String PyDate :=
  match mkDate today.year bd.month bd.day with
  | .error e => .error e
  | .ok bty =>
    if toOrdinal today > toOrdinal bty then
      mkDate (today.year + 1) bd.month bd.day
    else .ok bty

/-- Line 96 of the source: `current_date <= occ <= current_date + timedelta(days)`
(date comparisons, via ordinals). -/
def inWindowB (today : PyDate) (days : Int) (occ : PyDate) : Bool :=
  decide (toOrdinal today ≤ toOrdinal occ ∧
    (toOrdinal occ : Int) ≤ (toOrdinal today : Int) + days)

/-- Lines 97-101 of the source: move a Saturday occurrence forward 2 days
and a Sunday occurrence forward 1 day. -/
def shiftWeekend (d : PyDate) : PyDate :=
  if weekday d = 5 then addDays d 2
  else if weekday d = 6 then addDays d 1
  else d

/-- Line 102 of the source: the reported result line for one contact. -/
def mkEntry (name : String) (d : PyDate) : String :=
  "Contact name: " ++ name ++ ", birthday: " ++ fmtDMY d

/-- The body of the `get_upcoming_birthdays` loop for one contact: no
birthday contributes nothing; an invalid occurrence construction raises;
otherwise the (weekend-shifted) entry is emitted iff the un-shifted
occurrence lies in the window. -/
def congratulate (today : PyDate) (days : Int) (c : Record) : Except String (List String) :=
  match c.birthday with
  | none => .ok []
  | some bd =>
    match occurrence today bd with
    | .error e => .error e
    | .ok occ =>
      .ok (if inWindowB today days occ then [mkEntry c.name (shiftWeekend occ)] else [])

/-- The `get_upcoming_birthdays` loop over the book entries in iteration
order; the first raised error aborts the whole call. -/
def goUB (today : PyDate) (days : Int) : List (String × Record) → Except String (List String)
  | [] => .ok []
  | kv :: rest =>
    match congratulate today days kv.2 with
    | .error e => .error e
    | .ok l =>
      match goUB today days rest with
      | .error e => .error e
      | .ok ls => .ok (l ++ ls)

/-- `AddressBook.get_upcoming_birthdays`, with `today` (the source reads the
clock) and the day count as parameters. -/
def AddressBook.get_upcoming_birthdays (b : AddressBook) (days : Int) (today : PyDate) :
    Except String (List String) :=
  goUB today days b.data

/-- Whether the loop body emits an entry for this contact. -/
def isIncludedB (today : PyDate) (days : Int) (c : Record) : Bool :=
  match c.birthday with
  | none => false
  | some bd =>
    match occurrence today bd with
    | .error _ => false
    | .ok occ => inWindowB today days occ

/-- The entry the loop body emits for an included contact. -/
def reportedEntry (today : PyDate) (c : Record) : String :=
  match c.birthday with
  | none => ""
  | some bd =>
    match occurrence today bd with
    | .error _ => ""
    | .ok occ => mkEntry c.name (shiftWeekend occ)

/-- Invariant of the address book: every key equals the name of the record
it maps to. -/
def bookInv (b : AddressBook) : Prop :=
  ∀ kv ∈ b.data, kv.1 = kv.2.name

/-- Candidate occurrence written from the claim's words: this year's
date(today.year, B.month, B.day), advanced to next year exactly when it
lies strictly before today; undefined when the construction is invalid. -/
def candidateSpec (today : PyDate) (bd : PyDate) : Option PyDate :=
  if dateValidB today.year bd.month bd.day then
    if toOrdinal ⟨today.year, bd.month, bd.day⟩ < toOrdinal today then
      if dateValidB (today.year + 1) bd.month bd.day then
        some ⟨today.year + 1, bd.month, bd.day⟩
      else none
    else some ⟨today.year, bd.month, bd.day⟩
  else none

/-- Pattern written from the claim's words for comparison: two-digit day,
two-digit month, four-digit year, dot-separated, denoting a calendar-valid
date. -/
def specTwoDigitPat (s : String) : Bool :=
  match splitDots s.toList with
  | [ds, ms, ys] =>
    ds.all isAsciiDigit && ms.all isAsciiDigit && ys.all isAsciiDigit &&
    decide (ds.length = 2) && decide (ms.length = 2) && decide (ys.length = 4) &&
    dateValidB (tokVal ys) (tokVal ms) (tokVal ds)
  | _ => false

/-- Amended acceptance pattern: day, month and year separated by dots, the
day and month matching the strptime day and month token classes, the year
exactly four Unicode decimal digits, and the denoted date calendar-valid. -/
def amendedBirthdayPat (s : String) : Bool :=
  match splitDots s.toList with
  | [ds, ms, ys] =>
    (dayTok ds && monthTok ms && yearTok ys) &&
      dateValidB (tokVal ys) (tokVal ms) (tokVal ds)
  | _ => false

end Hw2

namespace Hw2

lemma contains_iff (l : List String) (a : String) : l.contains a = true ↔ a ∈ l := by
  unfold List.contains
  exact List.elem_iff

lemma find_phone_eq_none (r : Record) (p : String) (h : p ∉ r.phones) :
    r.find_phone p = none := by
  unfold Record.find_phone
  rw [List.find?_eq_none]
  intro x hx
  simp only [beq_iff_eq]
  intro he
  exact h (he ▸ hx)

lemma find_phone_isSome (r : Record) (p : String) (h : p ∈ r.phones) :
    ∃ q, r.find_phone p = some q := by
  unfold Record.find_phone
  rcases hf : r.phones.find? (fun x => x == p) with _ | q
  · rw [List.find?_eq_none] at hf
    exact absurd (by simp : (p == p) = true) (hf p h)
  · exact ⟨q, rfl⟩

lemma remove_phone_present (r : Record) (p : String) (h : p ∈ r.phones) :
    r.remove_phone p = ({ r with phones := r.phones.erase p }, .ok ()) := by
  unfold Record.remove_phone
  rw [if_pos ((contains_iff _ _).2 h)]

lemma remove_phone_absent (r : Record) (p : String) (h : p ∉ r.phones) :
    r.remove_phone p = (r, .error ("\x27" ++ p ++ "\x27 not found")) := by
  unfold Record.remove_phone
  rw [if_neg (fun hc => h ((contains_iff _ _).1 hc))]

lemma ascii_pyIsDigit (c : Char) (h : isAsciiDigit c = true) : pyIsDigitChar c = true := by
  unfold isAsciiDigit at h
  rw [decide_eq_true_eq] at h
  unfold pyIsDigitChar
  apply List.any_eq_true.2
  refine ⟨(48, 57), ?_, ?_⟩
  · unfold pyDigitRanges
    exact List.mem_cons_self _ _
  · exact decide_eq_true h

/-- C5 counterexample: the program accepts the 10-character text of
superscript-two characters (Python `str.isdigit` is Unicode-aware), although
none of its characters is a decimal digit under either the ASCII or the
Unicode Nd reading — so failure is not equivalent to
"not 10 decimal digits". -/
theorem phone_unicode_digits_cex :
    mkPhone "²²²²²²²²²²" = .ok "²²²²²²²²²²" ∧
    "²²²²²²²²²²".toList.all isAsciiDigit = false ∧
    "²²²²²²²²²²".toList.all isNd = false :=
  ⟨rfl, rfl, rfl⟩

/-- C5 (amended): `makePhone` fails with the validation error exactly when
the text is not 10 characters each accepted by Python's Unicode-aware
`str.isdigit`; every 10-character (ASCII) decimal-digit text succeeds and
the stored value renders back to exactly the same text. -/
theorem phone_validation_amended :
    (∀ s : String, mkPhone s = .error "The number must be 10 digits long" ↔
        ¬ (s.length = 10 ∧ s.toList.all pyIsDigitChar = true)) ∧
    (∀ s : String, s.length = 10 → s.toList.all isAsciiDigit = true →
        mkPhone s = .ok s ∧ fieldStr s = s) := by
  constructor
  · intro s
    unfold mkPhone
    split
    · rename_i h
      simp only [Bool.and_eq_true, beq_iff_eq] at h
      exact iff_of_false (by simp) (not_not_intro h)
    · rename_i h
      simp only [Bool.and_eq_true, beq_iff_eq] at h
      exact iff_of_true rfl h
  · intro s h1 h2
    have hall : s.toList.all pyIsDigitChar = true := by
      rw [List.all_eq_true] at h2 ⊢
      intro c hc
      exact ascii_pyIsDigit c (h2 c hc)
    refine ⟨?_, rfl⟩
    unfold mkPhone
    rw [if_pos (show ((s.length == 10) && s.toList.all pyIsDigitChar) = true by
      rw [h1, hall]; rfl)]

/-- Witness for the hypothesised parts of the C5 amended theorem at concrete
texts. -/
theorem phone_validation_amended_witness :
    mkPhone "0123456789" = .ok "0123456789" ∧ fieldStr "0123456789" = "0123456789" :=
  phone_validation_amended.2 "0123456789" (by decide) (by decide)

/-- C4 counterexample: editing the only phone "1111111111" to the invalid
"123" fails with the validation error, yet the phones sequence has changed
(the old phone is removed before the new one is validated), contradicting
the claim that on either failure the phones sequence is unchanged. -/
theorem edit_phone_mutates_on_invalid_cex :
    Record.edit_phone ⟨"john", ["1111111111"], none⟩ "1111111111" "123" =
      (⟨"john", [], none⟩, .error "The number must be 10 digits long") ∧
    (⟨"john", [], none⟩ : Record).phones ≠
      (⟨"john", ["1111111111"], none⟩ : Record).phones := by
  exact ⟨rfl, by decide⟩

/-- C4 (amended): `editPhone` fails with `NotFoundError` when the old phone
is absent, leaving the record unchanged; when the old phone is present and
the new phone is invalid it fails with `ValidationError`, but only after
one occurrence of the old phone has already been removed; otherwise it
removes one occurrence of the old phone and appends the new one, and the
concrete edit from "1111111111" to "2222222222" on a record holding exactly
one "1111111111" leaves one "2222222222" and zero "1111111111". -/
theorem edit_phone_behavior :
    (∀ (r : Record) (po pn : String), po ∉ r.phones →
        r.edit_phone po pn = (r, .error ("\x27" ++ po ++ "\x27 not found"))) ∧
    (∀ (r : Record) (po pn : String), po ∈ r.phones →
        mkPhone pn = .error "The number must be 10 digits long" →
        r.edit_phone po pn =
          ({ r with phones := r.phones.erase po },
           .error "The number must be 10 digits long")) ∧
    (∀ (r : Record) (po pn : String), po ∈ r.phones → mkPhone pn = .ok pn →
        r.edit_phone po pn = ({ r with phones := r.phones.erase po ++ [pn] }, .ok ())) ∧
    ((Record.edit_phone ⟨"a", ["1111111111"], none⟩ "1111111111" "2222222222").1.phones.count
        "2222222222" = 1 ∧
     (Record.edit_phone ⟨"a", ["1111111111"], none⟩ "1111111111" "2222222222").1.phones.count
        "1111111111" = 0 ∧
     (Record.edit_phone ⟨"a", ["1111111111"], none⟩ "1111111111" "2222222222").2 = .ok ()) := by
  refine ⟨?_, ?_, ?_, by decide, by decide, rfl⟩
  · intro r po pn h
    unfold Record.edit_phone
    rw [find_phone_eq_none r po h]
  · intro r po pn h hn
    obtain ⟨q, hq⟩ := find_phone_isSome r po h
    unfold Record.edit_phone
    rw [hq]
    simp only [remove_phone_present r po h]
    unfold Record.add_phone
    rw [hn]
  · intro r po pn h hn
    obtain ⟨q, hq⟩ := find_phone_isSome r po h
    unfold Record.edit_phone
    rw [hq]
    simp only [remove_phone_present r po h]
    unfold Record.add_phone
    rw [hn]

/-- Witness for the C4 amended theorem at concrete records. -/
theorem edit_phone_behavior_witness :
    Record.edit_phone ⟨"b", ["9999999999"], none⟩ "1234567890" "123" =
      (⟨"b", ["9999999999"], none⟩, .error ("\x27" ++ "1234567890" ++ "\x27 not found")) ∧
    Record.edit_phone ⟨"b", ["9999999999"], none⟩ "9999999999" "123" =
      ({ name := "b", phones := List.erase ["9999999999"] "9999999999", birthday := none },
       .error "The number must be 10 digits long") :=
  ⟨edit_phone_behavior.1 ⟨"b", ["9999999999"], none⟩ "1234567890" "123" (by decide),
   edit_phone_behavior.2.1 ⟨"b", ["9999999999"], none⟩ "9999999999" "123" (by decide) rfl⟩

/-- C9 counterexample: on a record already holding "1111111111" (followed by
"2222222222"), adding "1111111111" and then removing it does not restore the
prior phone sequence — removal takes the first occurrence, so the order
changes from [1111111111, 2222222222] to [2222222222, 1111111111]. -/
theorem add_remove_roundtrip_cex :
    ((Record.add_phone ⟨"kate", ["1111111111", "2222222222"], none⟩
        "1111111111").1.remove_phone "1111111111").1 ≠
      (⟨"kate", ["1111111111", "2222222222"], none⟩ : Record) ∧
    (Record.add_phone ⟨"kate", ["1111111111", "2222222222"], none⟩ "1111111111").2 = .ok () ∧
    ((Record.add_phone ⟨"kate", ["1111111111", "2222222222"], none⟩
        "1111111111").1.remove_phone "1111111111").2 = .ok () := by
  exact ⟨by decide, rfl, rfl⟩

/-- C9 (amended): for a valid phone that the record does not already hold,
adding it and then removing it restores the prior phone sequence; and
removing a phone with no stored match fails with `NotFoundError`, leaving
the record unchanged. (When the phone already occurs, removal takes the
first occurrence, so only the multiset — not the sequence — is restored.) -/
theorem add_remove_roundtrip_amended :
    (∀ (r : Record) (p : String), mkPhone p = .ok p → p ∉ r.phones →
        (r.add_phone p).2 = .ok () ∧
        ((r.add_phone p).1.remove_phone p).1 = r ∧
        ((r.add_phone p).1.remove_phone p).2 = .ok ()) ∧
    (∀ (r : Record) (p : String), p ∉ r.phones →
        r.remove_phone p = (r, .error ("\x27" ++ p ++ "\x27 not found"))) := by
  constructor
  · intro r p hv h
    have hadd : r.add_phone p = ({ r with phones := r.phones ++ [p] }, .ok ()) := by
      unfold Record.add_phone
      rw [hv]
    have herase : (r.phones ++ [p]).erase p = r.phones := by
      rw [List.erase_append_right _ h, List.erase_cons_head, List.append_nil]
    have hrem := remove_phone_present ({ r with phones := r.phones ++ [p] }) p (by simp)
    refine ⟨by rw [hadd], ?_, ?_⟩
    · rw [hadd, hrem]
      simp only [herase]
    · rw [hadd, hrem]
  · exact remove_phone_absent

/-- Witness for the C9 amended theorem at a concrete record. -/
theorem add_remove_roundtrip_amended_witness :
    ((Record.add_phone ⟨"kate", ["2222222222"], none⟩ "1111111111").1.remove_phone
        "1111111111").1 = (⟨"kate", ["2222222222"], none⟩ : Record) ∧
    Record.remove_phone ⟨"kate", ["2222222222"], none⟩ "3333333333" =
      (⟨"kate", ["2222222222"], none⟩,
       .error ("\x27" ++ "3333333333" ++ "\x27 not found")) :=
  ⟨(add_remove_roundtrip_amended.1 ⟨"kate", ["2222222222"], none⟩ "1111111111" rfl
      (by decide)).2.1,
   add_remove_roundtrip_amended.2 ⟨"kate", ["2222222222"], none⟩ "3333333333" (by decide)⟩

end Hw2

namespace Hw2

lemma add_phone_name (r : Record) (p : String) : ((r.add_phone p).1).name = r.name := by
  unfold Record.add_phone
  cases mkPhone p <;> rfl

lemma remove_phone_name (r : Record) (p : String) :
    ((r.remove_phone p).1).name = r.name := by
  unfold Record.remove_phone
  split <;> rfl

lemma edit_phone_name (r : Record) (po pn : String) :
    ((r.edit_phone po pn).1).name = r.name := by
  unfold Record.edit_phone
  cases r.find_phone po with
  | none => rfl
  | some q =>
    by_cases hc : po ∈ r.phones
    · rw [remove_phone_present r po hc]
      exact add_phone_name _ pn
    · rw [remove_phone_absent r po hc]

lemma add_birthday_name (r : Record) (s : String) :
    ((r.add_birthday s).1).name = r.name := by
  unfold Record.add_birthday
  cases mkBirthday s <;> rfl

/-- C8: the key-equals-name invariant holds of the empty book and is
preserved by `add_record` and `delete`; every record mutation leaves the
record's name unchanged (it is set once at creation), so in-place record
mutation also preserves the invariant. -/
theorem key_name_invariant :
    bookInv ⟨[]⟩ ∧
    (∀ (b : AddressBook) (r : Record), bookInv b → bookInv (b.add_record r)) ∧
    (∀ (b : AddressBook) (n : String) (b' : AddressBook),
        bookInv b → b.delete n = .ok b' → bookInv b') ∧
    (∀ n : String, (Record.create n).name = n) ∧
    (∀ (r : Record) (p : String), ((r.add_phone p).1).name = r.name) ∧
    (∀ (r : Record) (p : String), ((r.remove_phone p).1).name = r.name) ∧
    (∀ (r : Record) (po pn : String), ((r.edit_phone po pn).1).name = r.name) ∧
    (∀ (r : Record) (s : String), ((r.add_birthday s).1).name = r.name) := by
  refine ⟨?_, ?_, ?_, fun _ => rfl, ?_, ?_, ?_, ?_⟩
  · intro kv hkv
    simp at hkv
  · intro b r hb
    unfold AddressBook.add_record
    split
    · intro kv hkv
      simp only at hkv
      obtain ⟨kv0, h0, heq⟩ := List.mem_map.1 hkv
      by_cases hk : (kv0.1 == r.name) = true
      · rw [if_pos hk] at heq
        rw [← heq]
        exact beq_iff_eq.1 hk
      · rw [if_neg hk] at heq
        rw [← heq]
        exact hb kv0 h0
    · intro kv hkv
      simp only at hkv
      rcases List.mem_append.1 hkv with h | h
      · exact hb kv h
      · simp at h
        rw [h]
  · intro b n b' hb hdel
    unfold AddressBook.delete at hdel
    split at hdel
    · cases hdel
      intro kv hkv
      exact hb kv (List.mem_of_mem_eraseP hkv)
    · cases hdel
  · exact add_phone_name
  · exact remove_phone_name
  · exact edit_phone_name
  · exact add_birthday_name

/-- Witness for the C8 invariant theorem: the book built by one concrete
`add_record` on the empty book satisfies the invariant at its single entry. -/
theorem key_name_invariant_witness :
    ("ann", Record.create "ann").1 = ("ann", Record.create "ann").2.name :=
  key_name_invariant.2.1 ⟨[]⟩ (Record.create "ann") key_name_invariant.1
    ("ann", Record.create "ann") (by simp [AddressBook.add_record, Record.create])

end Hw2

namespace Hw2

lemma daysBeforeMonth_add_le (y m d : Nat) (h1 : 1 ≤ m) (h2 : m ≤ 12)
    (h3 : d ≤ daysInMonth y m) :
    daysBeforeMonth y m + d ≤ 365 + (if isLeap y then 1 else 0) := by
  interval_cases m <;>
    (simp only [daysBeforeMonth, daysInMonth] at h3 ⊢) <;>
    cases hL : isLeap y <;> simp only [hL] at h3 ⊢ <;> simp_all <;> omega

set_option maxHeartbeats 1000000 in
lemma daysBeforeYear_succ (y : Nat) (hy : 1 ≤ y) :
    daysBeforeYear (y + 1) = daysBeforeYear y + 365 + (if isLeap y then 1 else 0) := by
  unfold daysBeforeYear isLeap
  split
  · rename_i h
    rw [decide_eq_true_eq] at h
    omega
  · rename_i h
    simp only [decide_eq_true_eq] at h
    omega

lemma toOrdinal_lt_of_year_succ (a b : PyDate)
    (ha : dateValidB a.year a.month a.day = true)
    (hb : dateValidB b.year b.month b.day = true)
    (hy : b.year = a.year + 1) : toOrdinal a < toOrdinal b := by
  have ha' := ha
  simp only [dateValidB, decide_eq_true_eq] at ha' hb
  obtain ⟨ha1, ha2, ha3, ha4, ha5⟩ := ha'
  obtain ⟨hb1, hb2, hb3, hb4, hb5⟩ := hb
  have hA := daysBeforeMonth_add_le a.year a.month a.day ha2 ha3 ha5
  have hC := daysBeforeYear_succ a.year ha1
  unfold toOrdinal
  rw [hy]
  cases hL : isLeap a.year <;> simp only [hL] at hA hC <;> simp at hA hC <;> omega

lemma mkDate_ok (y m d : Nat) (dt : PyDate) (h : mkDate y m d = .ok dt) :
    dt = ⟨y, m, d⟩ ∧ dateValidB y m d = true := by
  unfold mkDate at h
  split at h
  · cases h
    exact ⟨rfl, by assumption⟩
  · cases h

lemma occurrence_ge (today bd occ : PyDate)
    (hT : dateValidB today.year today.month today.day = true)
    (h : occurrence today bd = .ok occ) : toOrdinal today ≤ toOrdinal occ := by
  unfold occurrence at h
  split at h
  · cases h
  · rename_i bty hm
    obtain ⟨hbty, hvb⟩ := mkDate_ok _ _ _ _ hm
    split at h
    · obtain ⟨hocc, hvocc⟩ := mkDate_ok _ _ _ _ h
      subst hocc
      exact Nat.le_of_lt (toOrdinal_lt_of_year_succ today _ hT hvocc rfl)
    · rename_i hgt
      cases h
      omega

lemma congratulate_ok_eq (today : PyDate) (days : Int) (c : Record) (l : List String)
    (h : congratulate today days c = .ok l) :
    l = if isIncludedB today days c then [reportedEntry today c] else [] := by
  unfold congratulate at h
  split at h
  · rename_i hb
    cases h
    simp [isIncludedB, reportedEntry, hb]
  · rename_i bd hb
    split at h
    · cases h
    · rename_i occ ho
      cases h
      simp only [isIncludedB, reportedEntry, hb, ho]

lemma congratulate_err_elim (today : PyDate) (days : Int) (c : Record) (bd : PyDate)
    (hb : c.birthday = some bd) (e : String) (ho : occurrence today bd = .error e) :
    congratulate today days c = .error e := by
  unfold congratulate
  simp only [hb, ho]

lemma goUB_ok_char (today : PyDate) (days : Int) (l : List (String × Record))
    (res : List String) (h : goUB today days l = .ok res) :
    res = (l.filter (fun kv => isIncludedB today days kv.2)).map
      (fun kv => reportedEntry today kv.2) := by
  induction l generalizing res with
  | nil =>
    unfold goUB at h
    cases h
    rfl
  | cons kv rest ih =>
    unfold goUB at h
    split at h
    · cases h
    · rename_i l0 hc
      split at h
      · cases h
      · rename_i ls hr
        cases h
        have hl0 := congratulate_ok_eq _ _ _ _ hc
        have hls := ih ls hr
        rw [List.filter_cons]
        cases hi : isIncludedB today days kv.2 <;>
          rw [hi] at hl0 <;> simp at hl0 <;> simp [hl0, hls, hi]

lemma goUB_mem (today : PyDate) (days : Int) (l : List (String × Record))
    (res : List String) (h : goUB today days l = .ok res)
    (name : String) (r : Record) (hm : (name, r) ∈ l)
    (l0 : List String) (hc : congratulate today days r = .ok l0) :
    ∀ e ∈ l0, e ∈ res := by
  intro e he
  rw [goUB_ok_char today days l res h]
  have hl0 := congratulate_ok_eq _ _ _ _ hc
  cases hi : isIncludedB today days r with
  | false => rw [hi] at hl0; simp [hl0] at he
  | true =>
    rw [hi] at hl0
    simp at hl0
    subst hl0
    simp at he
    subst he
    exact List.mem_map.2 ⟨(name, r), List.mem_filter.2 ⟨hm, hi⟩, rfl⟩

lemma goUB_err_of_mem (today : PyDate) (days : Int) (l : List (String × Record))
    (name : String) (r : Record) (hm : (name, r) ∈ l) (e : String)
    (hc : congratulate today days r = .error e) :
    ∀ res, goUB today days l ≠ .ok res := by
  induction l with
  | nil => cases hm
  | cons kv rest ih =>
    intro res hok
    unfold goUB at hok
    cases hc0 : congratulate today days kv.2 with
    | error e0 => rw [hc0] at hok; cases hok
    | ok l0 =>
      rw [hc0] at hok
      rcases List.mem_cons.1 hm with heq | hmem
      · rw [← heq] at hc0
        rw [hc0] at hc
        cases hc
      · cases hr : goUB today days rest with
        | error e1 => rw [hr] at hok; cases hok
        | ok ls => exact ih hmem ls hr

end Hw2

namespace Hw2

/-- C1: for a contact whose candidate occurrence is valid, a Saturday
occurrence is reported shifted by 2 days and a Sunday occurrence by 1 day,
while the window-inclusion test is decided on the un-shifted occurrence
(out-of-window weekend occurrences are excluded regardless of their shifted
date); concretely, with today = 2024-06-10 and birthday 06/15 the 7-day
query reports the contact at 2024-06-17. -/
theorem weekend_shift_reported_only :
    (∀ (today : PyDate) (days : Int) (c : Record) (bd occ : PyDate),
        c.birthday = some bd → occurrence today bd = .ok occ →
        ((weekday occ = 5 → shiftWeekend occ = addDays occ 2) ∧
         (weekday occ = 6 → shiftWeekend occ = addDays occ 1)) ∧
        (inWindowB today days occ = true →
          congratulate today days c = .ok [mkEntry c.name (shiftWeekend occ)]) ∧
        (inWindowB today days occ = false → congratulate today days c = .ok [])) ∧
    AddressBook.get_upcoming_birthdays ⟨[("bob", ⟨"bob", [], some ⟨2000, 6, 15⟩⟩)]⟩ 7
        ⟨2024, 6, 10⟩ =
      .ok ["Contact name: bob, birthday: 17.06.2024"] := by
  constructor
  · intro today days c bd occ hb ho
    refine ⟨⟨?_, ?_⟩, ?_, ?_⟩
    · intro h5
      unfold shiftWeekend
      rw [if_pos h5]
    · intro h6
      unfold shiftWeekend
      rw [if_neg (by omega), if_pos h6]
    · intro hw
      unfold congratulate
      simp only [hb, ho, hw]
      rfl
    · intro hw
      unfold congratulate
      simp only [hb, ho, hw]
      rfl
  · rfl

/-- Witness for the C1 theorem at the concrete spec example (Saturday
2024-06-15 seen from Monday 2024-06-10, 7-day window). -/
theorem weekend_shift_reported_only_witness :
    congratulate ⟨2024, 6, 10⟩ 7 ⟨"bob", [], some ⟨2000, 6, 15⟩⟩ =
      .ok [mkEntry "bob" (shiftWeekend ⟨2024, 6, 15⟩)] :=
  ((weekend_shift_reported_only.1 ⟨2024, 6, 10⟩ 7 ⟨"bob", [], some ⟨2000, 6, 15⟩⟩
      ⟨2000, 6, 15⟩ ⟨2024, 6, 15⟩ rfl rfl).2.1) rfl

/-- C2: a record with no birthday contributes nothing and raises no error; a
record with birthday and valid candidate occurrence contributes its entry
exactly when the occurrence lies in the inclusive window; the code's
occurrence agrees with the claim's candidate definition (this year unless
strictly before today, else next year); and every entry a record
contributes is included in a successful query result. -/
theorem upcoming_inclusion_iff :
    (∀ (today : PyDate) (days : Int) (c : Record), c.birthday = none →
        congratulate today days c = .ok []) ∧
    (∀ (today : PyDate) (days : Int) (c : Record) (bd occ : PyDate),
        c.birthday = some bd → occurrence today bd = .ok occ →
        (inWindowB today days occ = true ↔
          congratulate today days c = .ok [mkEntry c.name (shiftWeekend occ)]) ∧
        (inWindowB today days occ = false ↔ congratulate today days c = .ok [])) ∧
    (∀ (today bd occ : PyDate),
        occurrence today bd = .ok occ ↔ candidateSpec today bd = some occ) ∧
    (∀ (book : AddressBook) (days : Int) (today : PyDate) (res : List String),
        book.get_upcoming_birthdays days today = .ok res →
        ∀ (name : String) (r : Record), (name, r) ∈ book.data →
        ∀ l, congratulate today days r = .ok l → ∀ e ∈ l, e ∈ res) := by
  refine ⟨?_, ?_, ?_, ?_⟩
  · intro today days c hb
    unfold congratulate
    simp only [hb]
  · intro today days c bd occ hb ho
    constructor
    · constructor
      · intro hw
        unfold congratulate
        simp only [hb, ho, hw]
        rfl
      · intro hc
        unfold congratulate at hc
        simp only [hb, ho] at hc
        cases hw : inWindowB today days occ with
        | true => rfl
        | false =>
          rw [hw] at hc
          simp at hc
    · constructor
      · intro hw
        unfold congratulate
        simp only [hb, ho, hw]
        rfl
      · intro hc
        unfold congratulate at hc
        simp only [hb, ho] at hc
        cases hw : inWindowB today days occ with
        | false => rfl
        | true =>
          rw [hw] at hc
          simp at hc
  · intro today bd occ
    unfold occurrence candidateSpec mkDate
    by_cases hv : dateValidB today.year bd.month bd.day = true
    · rw [if_pos hv, if_pos hv]
      simp only
      by_cases hlt : toOrdinal (⟨today.year, bd.month, bd.day⟩ : PyDate) < toOrdinal today
      · rw [if_pos hlt, if_pos hlt]
        by_cases hv2 : dateValidB (today.year + 1) bd.month bd.day = true
        · rw [if_pos hv2, if_pos hv2]
          simp
        · rw [if_neg hv2, if_neg hv2]
          simp
      · rw [if_neg hlt, if_neg hlt]
        simp
    · rw [if_neg hv, if_neg hv]
      simp
  · intro book days today res h name r hm l hc
    exact goUB_mem today days book.data res h name r hm l hc

/-- Witness for the C2 theorem: the in-window contact's entry occurs in the
concrete query result, and a birthday-less record contributes nothing. -/
theorem upcoming_inclusion_iff_witness :
    "Contact name: bob, birthday: 17.06.2024" ∈
      ["Contact name: bob, birthday: 17.06.2024"] ∧
    congratulate ⟨2024, 6, 10⟩ 7 ⟨"nobody", [], none⟩ = .ok [] :=
  ⟨upcoming_inclusion_iff.2.2.2 ⟨[("bob", ⟨"bob", [], some ⟨2000, 6, 15⟩⟩)]⟩ 7
      ⟨2024, 6, 10⟩ ["Contact name: bob, birthday: 17.06.2024"] rfl
      "bob" ⟨"bob", [], some ⟨2000, 6, 15⟩⟩ (by simp)
      ["Contact name: bob, birthday: 17.06.2024"] rfl
      "Contact name: bob, birthday: 17.06.2024" (by simp),
   upcoming_inclusion_iff.1 ⟨2024, 6, 10⟩ 7 ⟨"nobody", [], none⟩ rfl⟩

end Hw2

namespace Hw2

/-- C7: a successful query result is exactly the image, in the book's
insertion/iteration order, of the included records — never sorted by date;
concretely, with alice (occurrence 2024-06-20) inserted before bobby
(occurrence 2024-06-12), the result lists alice first although her date is
later. -/
theorem result_insertion_order :
    (∀ (book : AddressBook) (days : Int) (today : PyDate) (res : List String),
        book.get_upcoming_birthdays days today = .ok res →
        res = (book.data.filter (fun kv => isIncludedB today days kv.2)).map
          (fun kv => reportedEntry today kv.2)) ∧
    AddressBook.get_upcoming_birthdays
        ⟨[("alice", ⟨"alice", [], some ⟨1990, 6, 20⟩⟩),
          ("bobby", ⟨"bobby", [], some ⟨1995, 6, 12⟩⟩)]⟩ 10 ⟨2024, 6, 10⟩ =
      .ok ["Contact name: alice, birthday: 20.06.2024",
           "Contact name: bobby, birthday: 12.06.2024"] := by
  constructor
  · intro book days today res h
    exact goUB_ok_char today days book.data res h
  · rfl

/-- Witness for the C7 theorem at a concrete two-record book. -/
theorem result_insertion_order_witness :
    ["Contact name: alice, birthday: 20.06.2024",
     "Contact name: bobby, birthday: 12.06.2024"] =
      (([("alice", (⟨"alice", [], some ⟨1990, 6, 20⟩⟩ : Record)),
         ("bobby", ⟨"bobby", [], some ⟨1995, 6, 12⟩⟩)]).filter
          (fun kv => isIncludedB ⟨2024, 6, 10⟩ 10 kv.2)).map
        (fun kv => reportedEntry ⟨2024, 6, 10⟩ kv.2) :=
  result_insertion_order.1
    ⟨[("alice", ⟨"alice", [], some ⟨1990, 6, 20⟩⟩),
      ("bobby", ⟨"bobby", [], some ⟨1995, 6, 12⟩⟩)]⟩ 10 ⟨2024, 6, 10⟩
    ["Contact name: alice, birthday: 20.06.2024",
     "Contact name: bobby, birthday: 12.06.2024"] rfl

/-- C3 counterexample: with today = 2023-06-10 (2023 not a leap year), a book
holding a Feb-29 contact followed by a June contact makes the whole query
raise the construction error instead of skipping the Feb-29 contact — even
though the June contact alone would produce a result. -/
theorem feb29_fails_whole_cex :
    AddressBook.get_upcoming_birthdays
        ⟨[("feb", ⟨"feb", [], some ⟨2000, 2, 29⟩⟩),
          ("june", ⟨"june", [], some ⟨1990, 6, 12⟩⟩)]⟩ 7 ⟨2023, 6, 10⟩ =
      .error "day is out of range for month" ∧
    AddressBook.get_upcoming_birthdays
        ⟨[("june", ⟨"june", [], some ⟨1990, 6, 12⟩⟩)]⟩ 7 ⟨2023, 6, 10⟩ =
      .ok ["Contact name: june, birthday: 12.06.2023"] :=
  ⟨rfl, rfl⟩

/-- C3 (amended): a stored Feb-29 birthday makes this year's occurrence
construction fail whenever today's year is not a leap year, and any record
whose occurrence construction fails makes the whole `get_upcoming_birthdays`
call fail (the `ValueError` propagates) instead of skipping that contact. -/
theorem feb29_error_propagates :
    (∀ (today bd : PyDate), bd.month = 2 → bd.day = 29 → isLeap today.year = false →
        occurrence today bd = .error "day is out of range for month") ∧
    (∀ (book : AddressBook) (days : Int) (today : PyDate)
        (name : String) (r : Record) (bd : PyDate) (e : String),
        (name, r) ∈ book.data → r.birthday = some bd →
        occurrence today bd = .error e →
        ∀ res, book.get_upcoming_birthdays days today ≠ .ok res) := by
  constructor
  · intro today bd hm hd hL
    have hv : dateValidB today.year bd.month bd.day = false := by
      rw [hm, hd]
      simp only [dateValidB, daysInMonth, decide_eq_false_iff_not]
      intro hcon
      rcases hcon with ⟨-, -, -, -, h29⟩
      rw [hL] at h29
      simp at h29
    unfold occurrence mkDate
    rw [hv]
    simp
  · intro book days today name r bd e hm hb ho res
    exact goUB_err_of_mem today days book.data name r hm e
      (congratulate_err_elim today days r bd hb e ho) res

/-- Witness for the C3 amended theorem at the concrete Feb-29 book. -/
theorem feb29_error_propagates_witness :
    occurrence ⟨2023, 6, 10⟩ ⟨2000, 2, 29⟩ = .error "day is out of range for month" ∧
    (AddressBook.get_upcoming_birthdays
        ⟨[("feb", ⟨"feb", [], some ⟨2000, 2, 29⟩⟩)]⟩ 7 ⟨2023, 6, 10⟩).isOk = false := by
  refine ⟨feb29_error_propagates.1 ⟨2023, 6, 10⟩ ⟨2000, 2, 29⟩ rfl rfl rfl, ?_⟩
  cases hres : AddressBook.get_upcoming_birthdays
      ⟨[("feb", ⟨"feb", [], some ⟨2000, 2, 29⟩⟩)]⟩ 7 ⟨2023, 6, 10⟩ with
  | ok res =>
    exact absurd hres
      (feb29_error_propagates.2 ⟨[("feb", ⟨"feb", [], some ⟨2000, 2, 29⟩⟩)]⟩ 7 ⟨2023, 6, 10⟩
        "feb" ⟨"feb", [], some ⟨2000, 2, 29⟩⟩ ⟨2000, 2, 29⟩
        "day is out of range for month" (by simp) rfl
        (feb29_error_propagates.1 ⟨2023, 6, 10⟩ ⟨2000, 2, 29⟩ rfl rfl rfl) res)
  | error e => rfl

/-- C10 counterexample: a book holding a Feb-29 contact queried with the
negative window -1 from 2023-06-10 raises the construction error instead of
returning an empty sequence without error. -/
theorem negative_window_error_cex :
    AddressBook.get_upcoming_birthdays
        ⟨[("feb", ⟨"feb", [], some ⟨2000, 2, 29⟩⟩)]⟩ (-1) ⟨2023, 6, 10⟩ =
      .error "day is out of range for month" :=
  rfl

/-- C10 (amended): for a valid `today` and a negative window, whenever the
query returns at all (no candidate-occurrence construction raised), the
result is the empty sequence, because every candidate occurrence lies on or
after today while the window's upper end lies strictly before it. -/
theorem negative_window_empty :
    ∀ (book : AddressBook) (days : Int) (today : PyDate) (res : List String),
      days < 0 → dateValidB today.year today.month today.day = true →
      book.get_upcoming_birthdays days today = .ok res → res = [] := by
  intro book days today res hneg hval h
  rw [goUB_ok_char today days book.data res h]
  have hall : ∀ kv ∈ book.data, ¬ (isIncludedB today days kv.2 = true) := by
    intro kv hkv
    unfold isIncludedB
    split
    · simp
    · rename_i bd hb
      split
      · simp
      · rename_i occ ho
        have hge := occurrence_ge today bd occ hval ho
        unfold inWindowB
        rw [decide_eq_true_eq]
        intro hcon
        omega
  rw [List.filter_eq_nil_iff.2 hall]
  rfl

/-- Witness for the C10 amended theorem: every hypothesis is discharged at a
concrete book (the query evaluates to the successful empty result there). -/
theorem negative_window_empty_witness :
    ([] : List String) = [] :=
  negative_window_empty ⟨[("nob", ⟨"nob", [], none⟩)]⟩ (-1)
    ⟨2024, 6, 10⟩ [] (by decide) rfl rfl

end Hw2

namespace Hw2

lemma mkBirthday_error_msg (s e : String) (h : mkBirthday s = .error e) :
    e = "Invalid date format. Use DD.MM.YYYY" := by
  unfold mkBirthday at h
  split at h
  · split at h
    · split at h
      · cases h
      · cases h
        rfl
    · cases h
      rfl
  · cases h
    rfl

/-- C6 counterexample: the text "1.1.2000", with one-digit day and month,
does not match the claimed two-digit pattern, yet `makeBirthday` accepts it
(CPython `strptime` `%d`/`%m` accept one- or two-digit numerals). -/
theorem birthday_one_digit_cex :
    mkBirthday "1.1.2000" = .ok ⟨2000, 1, 1⟩ ∧ specTwoDigitPat "1.1.2000" = false :=
  ⟨rfl, rfl⟩

/-- C6 (amended): `makeBirthday` succeeds exactly when the text splits at
dots into day, month and year where the day matches the `strptime` `%d`
token (30/31, 0 followed by 1-9, a single 1-9, a space-padded 1-9, or 1/2
followed by any Unicode decimal digit), the month matches `%m` (an ASCII
one- or two-digit numeral 1-12), the year is exactly four Unicode decimal
digits, and the denoted date is calendar-valid; any other text fails with
the format `ValidationError`. In particular "29.02.2001" fails (2001 is not
a leap year), while "29.02.2000", the space-padded " 1.1.2000" and
"01.01.٢٠٠٠" (Arabic-Indic year digits) all succeed. -/
theorem birthday_format_amended :
    (∀ s : String, (mkBirthday s).isOk = amendedBirthdayPat s) ∧
    (∀ s : String, amendedBirthdayPat s = false →
        mkBirthday s = .error "Invalid date format. Use DD.MM.YYYY") ∧
    mkBirthday " 1.1.2000" = .ok ⟨2000, 1, 1⟩ ∧
    mkBirthday "01.01.٢٠٠٠" = .ok ⟨2000, 1, 1⟩ ∧
    mkBirthday "29.02.2001" = .error "Invalid date format. Use DD.MM.YYYY" ∧
    mkBirthday "29.02.2000" = .ok ⟨2000, 2, 29⟩ := by
  have key : ∀ s : String, (mkBirthday s).isOk = amendedBirthdayPat s := by
    intro s
    unfold mkBirthday amendedBirthdayPat
    have hmk : ∀ (y m d : Nat), (match mkDate y m d with
        | Except.ok dd => Except.ok dd
        | Except.error _ =>
            (Except.error "Invalid date format. Use DD.MM.YYYY" : Except String PyDate)).isOk
        = dateValidB y m d := by
      intro y m d
      unfold mkDate
      cases hv : dateValidB y m d <;> simp [hv, Except.isOk, Except.toBool]
    rcases splitDots s.toList with _ | ⟨ds, _ | ⟨ms, _ | ⟨ys, _ | ⟨d4, t⟩⟩⟩⟩
    · rfl
    · rfl
    · rfl
    · dsimp only
      by_cases hT : (dayTok ds && monthTok ms && yearTok ys) = true
      · rw [if_pos hT, hmk, hT, Bool.true_and]
      · rw [if_neg hT, Bool.eq_false_iff.2 hT, Bool.false_and]
        rfl
    · rfl
  have key2 : ∀ s : String, amendedBirthdayPat s = false →
      mkBirthday s = .error "Invalid date format. Use DD.MM.YYYY" := by
    intro s hp
    have hok := key s
    rw [hp] at hok
    cases hb : mkBirthday s with
    | ok d => rw [hb] at hok; simp [Except.isOk, Except.toBool] at hok
    | error e =>
      have hmsg := mkBirthday_error_msg s e hb
      rw [hmsg]
  exact ⟨key, key2, rfl, rfl, key2 "29.02.2001" rfl, rfl⟩

/-- Witness for the C6 amended theorem: a malformed text (five-digit year)
is rejected with the format error. -/
theorem birthday_format_amended_witness :
    mkBirthday "01.01.20000" = .error "Invalid date format. Use DD.MM.YYYY" :=
  birthday_format_amended.2.1 "01.01.20000" rfl

end Hw2
